import Mathlib

/-!
Verification development for the HelpVerse reporting / synthetic-backfill core.

The definitions below are shallow embeddings of the TypeScript report
controllers (admin auditorium controller and sales report controller):
the deterministic hash used for synthetic values, the occupancy /
utilization backfill formulas, the sales-report aggregation and
bucketing, the organizer scope gate, and the utilization lazy-write
path.  Machine arithmetic (JavaScript 32-bit signed wrapping in the
hash) is modelled on `Int` with explicit reduction mod 2^32; report
money/percentage arithmetic is modelled on `ℚ`; `toFixed(1)` rounding
is modelled by `round1`.
-/

/-- JavaScript `ToInt32`: reduce an integer to the 32-bit signed range
`[-2^31, 2^31)`, as produced by `x & x` or `x << k` in JS. -/
def toInt32 (x : Int) : Int :=
  if x % 4294967296 < 2147483648 then x % 4294967296
  else x % 4294967296 - 4294967296

/-- One step of the source hash loop:
`hash = ((hash << 5) - hash) + char; hash = hash & hash;`.
`hash << 5` wraps to 32-bit signed, the sum is exact (float64 on
magnitudes below 2^53), and `hash & hash` wraps the result again. -/
def hashStep (hash : Int) (c : Int) : Int :=
  toInt32 (toInt32 (hash * 32) - hash + c)

/-- Hash of a whole string, given as its list of UTF-16 code units,
starting from 0 (the source `hashString` loop body). -/
def hashChars (cs : List Int) : Int :=
  cs.foldl hashStep 0

/-- One step of the hash as the specification words it: a rolling
polynomial hash `hash = hash * 31 + charCode`, wrapped to the 32-bit
signed range at every step. -/
def specHashStep (hash : Int) (c : Int) : Int :=
  toInt32 (hash * 31 + c)

/-- The rolling 32-bit polynomial hash of a string, as the specification words it. -/
def specRollingHash (cs : List Int) : Int :=
  cs.foldl specHashStep 0

theorem emod_toInt32 (x : Int) : toInt32 x % 4294967296 = x % 4294967296 := by
  unfold toInt32
  split <;> omega

theorem toInt32_congr (x y : Int) (h : x % 4294967296 = y % 4294967296) :
    toInt32 x = toInt32 y := by
  unfold toInt32
  rw [h]

theorem toInt32_range (x : Int) :
    -2147483648 ≤ toInt32 x ∧ toInt32 x < 2147483648 := by
  unfold toInt32
  have h1 : 0 ≤ x % 4294967296 := Int.emod_nonneg x (by norm_num)
  have h2 : x % 4294967296 < 4294967296 := Int.emod_lt_of_pos x (by norm_num)
  split <;> omega

theorem hashStep_eq_specHashStep (h c : Int) :
    hashStep h c = specHashStep h c := by
  unfold hashStep specHashStep
  apply toInt32_congr
  have hm := emod_toInt32 (h * 32)
  omega

theorem hashChars_eq_specRollingHash (cs : List Int) :
    hashChars cs = specRollingHash cs := by
  unfold hashChars specRollingHash
  induction cs with
  | nil => rfl
  | cons c cs ih =>
    simp only [List.foldl_cons, hashStep_eq_specHashStep]
    have key : ∀ (l : List Int) (a : Int),
        l.foldl hashStep a = l.foldl specHashStep a := by
      intro l
      induction l with
      | nil => intro a; rfl
      | cons x xs ihl =>
        intro a
        simp only [List.foldl_cons, hashStep_eq_specHashStep]
        exact ihl (specHashStep a x)
    exact key cs (specHashStep 0 c)

theorem hashChars_range (cs : List Int) :
    -2147483648 ≤ hashChars cs ∧ hashChars cs < 2147483648 := by
  unfold hashChars
  have key : ∀ (l : List Int) (a : Int),
      -2147483648 ≤ a ∧ a < 2147483648 →
      -2147483648 ≤ l.foldl hashStep a ∧ l.foldl hashStep a < 2147483648 := by
    intro l
    induction l with
    | nil => intro a ha; exact ha
    | cons x xs ih =>
      intro a _
      exact ih (hashStep a x) (toInt32_range _)
  exact key cs 0 ⟨by norm_num, by norm_num⟩

theorem hashChars_natAbs_le (cs : List Int) :
    (hashChars cs).natAbs ≤ 2147483648 := by
  have h := hashChars_range cs
  omega

/-- JavaScript `parseFloat(x.toFixed(1))` for the non-negative values of
this code base: round to the nearest tenth, half up. -/
def round1 (x : ℚ) : ℚ :=
  (⌊x * 10 + 1 / 2⌋ : ℚ) / 10

theorem round1_le_of_lt (x : ℚ) (n : Int) (h : x * 10 + 1 / 2 < n + 1) :
    round1 x ≤ (n : ℚ) / 10 := by
  unfold round1
  have h1 : ⌊x * 10 + 1 / 2⌋ < n + 1 := by
    rw [Int.floor_lt]
    push_cast
    linarith
  have h2 : ⌊x * 10 + 1 / 2⌋ ≤ n := by omega
  have h3 : ((⌊x * 10 + 1 / 2⌋ : Int) : ℚ) ≤ (n : ℚ) := by exact_mod_cast h2
  linarith

theorem le_round1_of_le (x : ℚ) (n : Int) (h : (n : ℚ) ≤ x * 10 + 1 / 2) :
    (n : ℚ) / 10 ≤ round1 x := by
  unfold round1
  have h1 : n ≤ ⌊x * 10 + 1 / 2⌋ := Int.le_floor.mpr h
  have h2 : ((n : Int) : ℚ) ≤ ((⌊x * 10 + 1 / 2⌋ : Int) : ℚ) := by exact_mod_cast h1
  linarith

/-- A calendar date (UTC day granularity), the observable content of the
JS `Date` values this code stores at midnight. -/
structure CDate where
  year : Nat
  month : Nat
  day : Nat
deriving DecidableEq

/-- Gregorian leap-year rule (JS `Date` calendar). -/
def isLeapYear (y : Nat) : Bool :=
  (y % 4 == 0 && y % 100 != 0) || y % 400 == 0

/-- Number of days of month `m` (1-12) of year `y`, which is what the
source computes as `new Date(year, month + 1, 0).getDate()`. -/
def daysInMonth (y m : Nat) : Nat :=
  if m = 2 then (if isLeapYear y then 29 else 28)
  else if m = 4 ∨ m = 6 ∨ m = 9 ∨ m = 11 then 30
  else 31

/-- Days elapsed since 1970-01-01 (civil calendar), the day number
underlying `Date.getTime()` for midnight UTC dates. -/
def daysFromCivil (d : CDate) : Int :=
  let y : Int := if d.month ≤ 2 then (d.year : Int) - 1 else (d.year : Int)
  let era : Int := y / 400
  let yoe : Int := y - era * 400
  let mp : Int := if d.month > 2 then (d.month : Int) - 3 else (d.month : Int) + 9
  let doy : Int := (153 * mp + 2) / 5 + (d.day : Int) - 1
  let doe : Int := yoe * 365 + yoe / 4 - yoe / 100 + doy
  era * 146097 + doe - 719468

/-- JS `date.getDay()` for a midnight UTC date: 0 = Sunday … 6 = Saturday. -/
def weekday (d : CDate) : Int :=
  (daysFromCivil d + 4) % 7

/-- JS `date.getTime()` for a date stored at midnight: milliseconds
since the epoch. -/
def dateMs (d : CDate) : Int :=
  daysFromCivil d * 86400000

/-- Code unit of a decimal digit. -/
def digitChar (n : Nat) : Int :=
  48 + (n : Int)

/-- UTF-16 code units of `date.toISOString().split('T')[0]`, i.e. the
string `YYYY-MM-DD` (years 1000-9999). -/
def isoChars (d : CDate) : List Int :=
  [digitChar (d.year / 1000 % 10), digitChar (d.year / 100 % 10),
   digitChar (d.year / 10 % 10), digitChar (d.year % 10), 45,
   digitChar (d.month / 10), digitChar (d.month % 10), 45,
   digitChar (d.day / 10), digitChar (d.day % 10)]

example : daysFromCivil ⟨1970, 1, 1⟩ = 0 := by decide
example : daysFromCivil ⟨2024, 3, 15⟩ = 19797 := by decide
example : weekday ⟨2024, 3, 15⟩ = 5 := by decide
example : weekday ⟨2025, 1, 11⟩ = 6 := by decide
example : daysInMonth 2024 2 = 29 := by decide
example : isoChars ⟨2025, 1, 11⟩ =
    [50, 48, 50, 53, 45, 48, 49, 45, 49, 49] := by decide

/-- Source helper `hashString(str, date)`: hash of the seed string
`str ++ "-" ++ date.toISOString().split('T')[0]`. -/
def hashString (s : List Int) (d : CDate) : Int :=
  hashChars (s ++ 45 :: isoChars d)

/-- An approved event as read by the events-held endpoints (`name`,
`date`, seat counts; the date is the stored event date). -/
structure EventH where
  name : List Int
  date : CDate
  totalSeats : Int
  availableSeats : Int
deriving DecidableEq

/-- The genuinely computed occupancy
`((totalSeats - availableSeats) / totalSeats) * 100`. -/
def realOccupancy (e : EventH) : ℚ :=
  (((e.totalSeats - e.availableSeats : Int)) : ℚ) / ((e.totalSeats : Int) : ℚ) * 100

/-- Synthetic occupancy used when the real occupancy is zero:
`minOccupancy + (|hash| / 2147483647) * (maxOccupancy - minOccupancy)`
with bounds 10 and 85. -/
def occupancyBackfill (h : Int) : ℚ :=
  10 + ((h.natAbs : ℚ) / 2147483647) * (85 - 10)

/-- Occupancy computed for one event by the JSON events-held endpoint
(`getEventsHeld`): the real value, backfilled only when it is exactly
zero (and `totalSeats > 0`). -/
def getEventsHeldOccupancy (e : EventH) : ℚ :=
  if e.totalSeats > 0 then
    if realOccupancy e = 0 then occupancyBackfill (hashString e.name e.date)
    else realOccupancy e
  else 0

/-- The occupancy figure the JSON endpoint reports:
`parseFloat(occupancy.toFixed(1))`. -/
def getEventsHeldReported (e : EventH) : ℚ :=
  round1 (getEventsHeldOccupancy e)

/-- Projection for upcoming events in the PDF data path, by distance to
the event (source `baseProjection` ladder). -/
def baseProjection (nh : ℚ) (daysUntilEvent : Int) : ℚ :=
  if daysUntilEvent > 30 then 25 + nh * 20
  else if daysUntilEvent > 15 then 35 + nh * 25
  else if daysUntilEvent > 7 then 45 + nh * 30
  else 60 + nh * 25

/-- Occupancy computed for one event by the PDF data path
(`getEventsHeldData`): upcoming events with occupancy below 15 get
`max(occupancy, baseProjection)`, other zero-occupancy events get the
hash backfill. -/
def getEventsHeldDataOccupancy (e : EventH) (now : Int) : ℚ :=
  if e.totalSeats > 0 then
    if dateMs e.date > now ∧ realOccupancy e < 15 then
      max (realOccupancy e)
        (baseProjection (((hashString e.name e.date).natAbs : ℚ) / 2147483647)
          ((dateMs e.date - now) / 86400000))
    else if realOccupancy e = 0 then occupancyBackfill (hashString e.name e.date)
    else realOccupancy e
  else 0

/-- The occupancy figure the PDF data path reports. -/
def getEventsHeldDataReported (e : EventH) (now : Int) : ℚ :=
  round1 (getEventsHeldDataOccupancy e now)

/-- Synthetic utilization generated by the JSON utilization endpoint
(`getAuditoriumUtilization`) for a record whose stored percentage is 0
or whose date is in the future: weekend/weekday base 60/40, +10 within
30 future days, day-of-month variation, hash noise, clamped to 30-79. -/
def syntheticUtilizationJSON (rd : CDate) (now : Int) : ℚ :=
  let isWeekend := weekday rd = 0 ∨ weekday rd = 6
  let base : ℚ := if isWeekend then 60 else 40
  let base2 : ℚ :=
    if dateMs rd > now then
      (if (dateMs rd - now) / 86400000 ≤ 30 then base + 10 else base)
    else base
  let dateVariation : ℚ := ((rd.day : ℚ) / 31) * 15
  let randomFactor : ℚ :=
    (((hashString (isoChars rd) ⟨1970, 1, 1⟩).natAbs % 1000 : ℕ) : ℚ) / 1000 * 10
  max 30 (min 79 (base2 + dateVariation + randomFactor - 5))

/-- Synthetic utilization generated by the PDF utilization data path
(`getUtilizationData`) for a day with no schedules: weekend/weekday
base 55/35, +10 within 30 future days, day-of-month variation, hash
noise seeded by the string "auditorium", clamped to 20-75. -/
def syntheticUtilizationPDF (rd : CDate) (now : Int) : ℚ :=
  let isWeekend := weekday rd = 0 ∨ weekday rd = 6
  let base : ℚ := if isWeekend then 55 else 35
  let base2 : ℚ :=
    if dateMs rd > now then
      (if (dateMs rd - now) / 86400000 ≤ 30 then base + 10 else base)
    else base
  let dateVariation : ℚ := ((rd.day : ℚ) / 31) * 15
  let randomFactor : ℚ :=
    (((hashString [97, 117, 100, 105, 116, 111, 114, 105, 117, 109] rd).natAbs
        % 1000 : ℕ) : ℚ) / 1000 * 15
  max 20 (min 75 (base2 + dateVariation + randomFactor))

/-- A persisted `Utilization` record.  Modelled from the spec: the
`models/Utilization.ts` schema is not under `src/`; per the spec the
record stores `date` (day granularity, unique key), `total_hours_used`,
`total_hours_available`, an `events` list, and a
`utilization_percentage` that "may be stored as 0". -/
structure URecord where
  date : CDate
  total_hours_used : ℚ
  total_hours_available : ℚ
  utilization_percentage : ℚ
  events : List Nat
deriving DecidableEq

/-- Read-time processing of a stored utilization record (JSON endpoint):
backfill when the stored percentage is 0 or the date is in the future,
otherwise only format the stored percentage to one decimal. -/
def processUtilizationRecord (r : URecord) (now : Int) : URecord :=
  if r.utilization_percentage = 0 ∨ dateMs r.date > now then
    { r with
      total_hours_used :=
        round1 (syntheticUtilizationJSON r.date now / 100 * r.total_hours_available),
      utilization_percentage := round1 (syntheticUtilizationJSON r.date now) }
  else
    { r with utilization_percentage := round1 r.utilization_percentage }

/-- An auditorium schedule row: the (optional, populated) event
reference and the booked interval. -/
structure Schedule where
  event : Option Nat
  startMs : Int
  endMs : Int
deriving DecidableEq

/-- Hours difference `(endTime - startTime) / (1000*60*60)`. -/
def getHoursDifference (s : Schedule) : ℚ :=
  ((s.endMs - s.startMs : Int) : ℚ) / 3600000

/-- Whether a schedule falls inside day `d`
(`startTime >= dayStart && endTime <= dayEnd`). -/
def onDay (s : Schedule) (d : CDate) : Bool :=
  decide (dateMs d ≤ s.startMs) && decide (s.endMs ≤ dateMs d + 86399999)

/-- Stored records whose date equals day `d` (the range query
`date ∈ [dayStart, dayEnd]` on midnight-dated records). -/
def recordsForDay (store : List URecord) (d : CDate) : List URecord :=
  store.filter (fun r => r.date == d)

/-- Update the existing record for day `d` in place
(`existingRecord.save()`). -/
def updateRecord (store : List URecord) (d : CDate) (hrs : ℚ)
    (evs : List Nat) : List URecord :=
  store.map (fun r =>
    if r.date == d then { r with total_hours_used := hrs, events := evs } else r)

/-- One run of the JSON utilization endpoint restricted to a single-day
range `[d, d]`: returns the data sent to the caller and the store after
the run.  When no record exists for the range, per-day totals are
computed from the schedules and a record is upserted (created only when
the day has schedules, with `utilization_percentage` left at its schema
default 0); when records exist they are processed at read time and the
store is untouched. -/
def runUtilizationJSON (store : List URecord) (scheds : List Schedule)
    (d : CDate) (now : Int) : List URecord × List URecord :=
  if (recordsForDay store d).isEmpty then
    let dayScheds := scheds.filter (fun s => onDay s d)
    let totalHours := dayScheds.foldl (fun acc s => acc + getHoursDifference s) 0
    let evIds := dayScheds.filterMap (fun s => s.event)
    match store.find? (fun r => r.date == d) with
    | some _ =>
        let store2 := updateRecord store d totalHours evIds
        (recordsForDay store2 d, store2)
    | none =>
        if dayScheds.isEmpty then ([], store)
        else
          (([⟨d, totalHours, 24, 0, evIds⟩] : List URecord),
            store ++ [⟨d, totalHours, 24, 0, evIds⟩])
  else
    ((recordsForDay store d).map (fun r => processUtilizationRecord r now), store)

/-- Principal roles relevant to the report endpoints. -/
inductive Role
| user
| eventOrganizer
| admin
deriving DecidableEq

/-- Order lifecycle status. -/
inductive OrderStatus
| pending
| confirmed
| cancelled
deriving DecidableEq

/-- One ticket line item of an order. -/
structure TicketLine where
  quantity : Nat
  price : ℚ
deriving DecidableEq

/-- The event fields the report queries populate on an order
(the `populate` projection of event name and seat counts); `none` models a
failed population (dangling reference). -/
structure PopulatedEvent where
  eventId : Nat
  totalSeats : Int
  availableSeats : Int
deriving DecidableEq

/-- An order as read by the report queries.  `hour`, `day`, `weekdayIdx`
and `dateKey` are the calendar features the source derives from
`createdAt` (`getHours`, `getDate`, `getDay`, ISO date string). -/
structure OrderRec where
  orderId : Nat
  eventRef : Nat
  event : Option PopulatedEvent
  tickets : List TicketLine
  totalAmount : ℚ
  status : OrderStatus
  createdAtMs : Int
  hour : Fin 24
  day : Nat
  weekdayIdx : Nat
  dateKey : String
deriving DecidableEq

/-- An event document (fields used by the report endpoints). -/
structure EventRec where
  eventId : Nat
  createdBy : Nat
  name : String
  totalSeats : Int
  availableSeats : Int
deriving DecidableEq

/-- The collections the report endpoints query. -/
structure DB where
  events : List EventRec
  orders : List OrderRec
deriving DecidableEq

/-- The requesting principal. -/
structure ReportUser where
  userId : Nat
  role : Role
deriving DecidableEq

/-- Ticket count of one order:
`order.tickets.reduce((sum, ticket) => sum + ticket.quantity, 0)`. -/
def ticketCount (o : OrderRec) : ℚ :=
  o.tickets.foldl (fun s t => s + (t.quantity : ℚ)) 0

/-- Total tickets sold over the qualifying orders. -/
def ticketsSold (orders : List OrderRec) : ℚ :=
  orders.foldl (fun tot o => tot + ticketCount o) 0

/-- Total revenue: `orders.reduce((total, order) => total + order.totalAmount, 0)`. -/
def revenue (orders : List OrderRec) : ℚ :=
  orders.foldl (fun tot o => tot + o.totalAmount) 0

/-- Seat totals accumulated once per order (the daily/weekly/monthly
loop `orders.forEach(...)` adding the populated event seat counts). -/
def seatTotals (orders : List OrderRec) : Int × Int :=
  orders.foldl
    (fun acc o =>
      match o.event with
      | some e => (acc.1 + e.totalSeats, acc.2 + (e.totalSeats - e.availableSeats))
      | none => acc)
    (0, 0)

/-- Occupancy percentage of the daily/weekly/monthly reports. -/
def occupancyPercentage (orders : List OrderRec) : ℚ :=
  if (seatTotals orders).1 > 0 then
    (((seatTotals orders).2 : Int) : ℚ) / (((seatTotals orders).1 : Int) : ℚ) * 100
  else 0

/-- Add `v` into bucket `i` of a bucket array. -/
def bumpAt (arr : List ℚ) (i : Nat) (v : ℚ) : List ℚ :=
  arr.set i (arr.getD i 0 + v)

/-- Fill `n` zero buckets and accumulate each `(index, value)` pair,
mirroring `Array(n).fill(0)` followed by `buckets[i] += v`. -/
def accumBuckets (n : Nat) (xs : List (Nat × ℚ)) : List ℚ :=
  xs.foldl (fun arr p => bumpAt arr p.1 p.2) (List.replicate n 0)

/-- An hour bucket of the daily report. -/
structure HourBucket where
  hour : Nat
  count : ℚ
deriving DecidableEq

/-- An hour revenue bucket of the daily report. -/
structure HourAmount where
  hour : Nat
  amount : ℚ
deriving DecidableEq

/-- A weekday bucket of the weekly report. -/
structure DayNameBucket where
  day : String
  count : ℚ
deriving DecidableEq

/-- A weekday revenue bucket of the weekly report. -/
structure DayNameAmount where
  day : String
  amount : ℚ
deriving DecidableEq

/-- A day-of-month bucket of the monthly report. -/
structure MonthDayBucket where
  day : Nat
  count : ℚ
deriving DecidableEq

/-- A day-of-month revenue bucket of the monthly report. -/
structure MonthDayAmount where
  day : Nat
  amount : ℚ
deriving DecidableEq

/-- Daily report payload (the echoed request date is omitted). -/
structure DailyReport where
  ticketsSold : ℚ
  revenue : ℚ
  occupancyPercentage : ℚ
  salesData : List HourBucket
  revenueData : List HourAmount
deriving DecidableEq

/-- Weekly report payload (the echoed week bounds are omitted). -/
structure WeeklyReport where
  ticketsSold : ℚ
  revenue : ℚ
  occupancyPercentage : ℚ
  salesData : List DayNameBucket
  revenueData : List DayNameAmount
deriving DecidableEq

/-- Monthly report payload. -/
structure MonthlyReport where
  month : Nat
  year : Nat
  ticketsSold : ℚ
  revenue : ℚ
  occupancyPercentage : ℚ
  salesData : List MonthDayBucket
  revenueData : List MonthDayAmount
deriving DecidableEq

/-- Daily sales buckets: 24 hour buckets, zero-filled, each order added
at `createdAt.getHours()`. -/
def dailySalesData (orders : List OrderRec) : List HourBucket :=
  (accumBuckets 24 (orders.map (fun o => (o.hour.val, ticketCount o)))).enum.map
    (fun p => ⟨p.1, p.2⟩)

/-- Daily revenue buckets. -/
def dailyRevenueData (orders : List OrderRec) : List HourAmount :=
  (accumBuckets 24 (orders.map (fun o => (o.hour.val, o.totalAmount)))).enum.map
    (fun p => ⟨p.1, p.2⟩)

/-- Monday-first weekday names of the weekly report. -/
def dayNames : List String :=
  ["Monday", "Tuesday", "Wednesday", "Thursday", "Friday", "Saturday", "Sunday"]

/-- Weekly bucket index: `dayIndex === 0 ? 6 : dayIndex - 1` (Sunday goes
last). -/
def weeklyIndex (wd : Nat) : Nat :=
  if wd = 0 then 6 else wd - 1

/-- Weekly sales buckets keyed by weekday name. -/
def weeklySalesData (orders : List OrderRec) : List DayNameBucket :=
  (accumBuckets 7 (orders.map (fun o => (weeklyIndex o.weekdayIdx, ticketCount o)))).enum.map
    (fun p => ⟨dayNames.getD p.1 "", p.2⟩)

/-- Weekly revenue buckets keyed by weekday name. -/
def weeklyRevenueData (orders : List OrderRec) : List DayNameAmount :=
  (accumBuckets 7 (orders.map (fun o => (weeklyIndex o.weekdayIdx, o.totalAmount)))).enum.map
    (fun p => ⟨dayNames.getD p.1 "", p.2⟩)

/-- Monthly sales buckets: one bucket per day 1..daysInMonth, each order
added at `createdAt.getDate()`. -/
def monthlySalesData (y m : Nat) (orders : List OrderRec) : List MonthDayBucket :=
  (accumBuckets (daysInMonth y m)
      (orders.map (fun o => (o.day - 1, ticketCount o)))).enum.map
    (fun p => ⟨p.1 + 1, p.2⟩)

/-- Monthly revenue buckets. -/
def monthlyRevenueData (y m : Nat) (orders : List OrderRec) : List MonthDayAmount :=
  (accumBuckets (daysInMonth y m)
      (orders.map (fun o => (o.day - 1, o.totalAmount)))).enum.map
    (fun p => ⟨p.1 + 1, p.2⟩)

/-- Events owned by a user (`Event.find({ createdBy: user._id })`). -/
def ownedEvents (db : DB) (uid : Nat) : List EventRec :=
  db.events.filter (fun e => e.createdBy == uid)

/-- Scope predicate on an order: organizers only see orders whose event
reference is among their own events (`{ event: { $in: eventIds } }`). -/
def inScope (db : DB) (u : ReportUser) (o : OrderRec) : Bool :=
  if u.role == Role.eventOrganizer then
    (ownedEvents db u.userId).any (fun e => e.eventId == o.eventRef)
  else true

/-- Qualifying orders of a ranged report: in scope, confirmed, created
inside `[startMs, endMs]`. -/
def rangedOrders (db : DB) (u : ReportUser) (startMs endMs : Int) : List OrderRec :=
  db.orders.filter (fun o =>
    inScope db u o && (o.status == OrderStatus.confirmed)
      && decide (startMs ≤ o.createdAtMs) && decide (o.createdAtMs ≤ endMs))

/-- The sentinel message used by the ranged reports. -/
def insufficientDataMsg : String :=
  "Insufficient data for the selected period."

/-- Outcome of a daily report request. -/
inductive DailyOutcome
| message (text : String)
| report (r : DailyReport)
deriving DecidableEq

/-- Outcome of a weekly report request. -/
inductive WeeklyOutcome
| message (text : String)
| report (r : WeeklyReport)
deriving DecidableEq

/-- Outcome of a monthly report request. -/
inductive MonthlyOutcome
| message (text : String)
| report (r : MonthlyReport)
deriving DecidableEq

/-- Daily report built from the qualifying orders. -/
def dailyReportOf (orders : List OrderRec) : DailyReport :=
  { ticketsSold := ticketsSold orders
    revenue := revenue orders
    occupancyPercentage := occupancyPercentage orders
    salesData := dailySalesData orders
    revenueData := dailyRevenueData orders }

/-- `getDailyReportData` (also the body of the JSON `getDailyReport`):
organizer with zero events, or zero qualifying orders, gets the
sentinel; otherwise the daily report. -/
def getDailyReportData (db : DB) (u : ReportUser) (startMs endMs : Int) :
    DailyOutcome :=
  if u.role == Role.eventOrganizer && (ownedEvents db u.userId).isEmpty then
    .message insufficientDataMsg
  else
    let orders := rangedOrders db u startMs endMs
    if orders.isEmpty then .message insufficientDataMsg
    else .report (dailyReportOf orders)

/-- Weekly report built from the qualifying orders. -/
def weeklyReportOf (orders : List OrderRec) : WeeklyReport :=
  { ticketsSold := ticketsSold orders
    revenue := revenue orders
    occupancyPercentage := occupancyPercentage orders
    salesData := weeklySalesData orders
    revenueData := weeklyRevenueData orders }

/-- `getWeeklyReportData` (also the body of the JSON `getWeeklyReport`);
the Monday-based week bounds are computed by the caller. -/
def getWeeklyReportData (db : DB) (u : ReportUser) (startMs endMs : Int) :
    WeeklyOutcome :=
  if u.role == Role.eventOrganizer && (ownedEvents db u.userId).isEmpty then
    .message insufficientDataMsg
  else
    let orders := rangedOrders db u startMs endMs
    if orders.isEmpty then .message insufficientDataMsg
    else .report (weeklyReportOf orders)

/-- Monthly report built from the qualifying orders of month `m` of
year `y`. -/
def monthlyReportOf (y m : Nat) (orders : List OrderRec) : MonthlyReport :=
  { month := m
    year := y
    ticketsSold := ticketsSold orders
    revenue := revenue orders
    occupancyPercentage := occupancyPercentage orders
    salesData := monthlySalesData y m orders
    revenueData := monthlyRevenueData y m orders }

/-- Start of month `m` of year `y` in epoch milliseconds. -/
def startOfMonthMs (y m : Nat) : Int :=
  dateMs ⟨y, m, 1⟩

/-- End of month `m` of year `y` (last day, 23:59:59.999). -/
def endOfMonthMs (y m : Nat) : Int :=
  dateMs ⟨y, m, daysInMonth y m⟩ + 86399999

/-- `getMonthlyReportData` (also the body of the JSON `getMonthlyReport`). -/
def getMonthlyReportData (db : DB) (u : ReportUser) (y m : Nat) :
    MonthlyOutcome :=
  if u.role == Role.eventOrganizer && (ownedEvents db u.userId).isEmpty then
    .message insufficientDataMsg
  else
    let orders := rangedOrders db u (startOfMonthMs y m) (endOfMonthMs y m)
    if orders.isEmpty then .message insufficientDataMsg
    else .report (monthlyReportOf y m orders)

/-- One row of the all-time `ordersData` array. -/
structure OrderSummary where
  orderId : Nat
  eventId : Option Nat
  totalAmount : ℚ
  ticketCount : ℚ
  status : OrderStatus
deriving DecidableEq

/-- One row of the all-time `eventSummary` array. -/
structure EventSummary where
  eventId : Nat
  name : String
  totalOrders : Nat
  confirmedOrders : Nat
  ticketsSold : ℚ
  revenue : ℚ
  occupancyPercentage : ℚ
deriving DecidableEq

/-- All-time report payload. -/
structure AllReport where
  totalOrders : Nat
  confirmedOrders : Nat
  ticketsSold : ℚ
  revenue : ℚ
  occupancyPercentage : ℚ
  ordersData : List OrderSummary
  ordersByDate : List (String × List OrderSummary)
  eventSummary : List EventSummary
  occupancyByDate : List (String × ℚ)
deriving DecidableEq

/-- The zero-filled all-time structure returned when the scope holds no
orders at all. -/
def zeroAllReport : AllReport :=
  { totalOrders := 0, confirmedOrders := 0, ticketsSold := 0, revenue := 0
    occupancyPercentage := 0, ordersData := [], ordersByDate := []
    eventSummary := [], occupancyByDate := [] }

/-- Seat totals of the all-time report, accumulated once per event over
the scoped events list (`if (event.totalSeats)` is a JS truthiness
check, so events with 0 seats are skipped). -/
def allSeatTotals (events : List EventRec) : Int × Int :=
  events.foldl
    (fun acc e =>
      if e.totalSeats ≠ 0 then
        (acc.1 + e.totalSeats, acc.2 + (e.totalSeats - e.availableSeats))
      else acc)
    (0, 0)

/-- Occupancy percentage of the all-time report. -/
def allOccupancyPercentage (events : List EventRec) : ℚ :=
  if (allSeatTotals events).1 > 0 then
    (((allSeatTotals events).2 : Int) : ℚ) / (((allSeatTotals events).1 : Int) : ℚ) * 100
  else 0

/-- Summary row for one order. -/
def orderSummaryOf (o : OrderRec) : OrderSummary :=
  { orderId := o.orderId
    eventId := o.event.map (fun e => e.eventId)
    totalAmount := o.totalAmount
    ticketCount := ticketCount o
    status := o.status }

/-- First occurrences of each string key, in insertion order (JS `Set`
iteration / first-write key order). -/
def dedupKeys (l : List String) : List String :=
  l.foldl (fun acc k => if acc.any (fun x => x == k) then acc else acc ++ [k]) []

/-- First occurrences of each numeric id, in insertion order. -/
def dedupIds (l : List Nat) : List Nat :=
  l.foldl (fun acc k => if acc.any (fun x => x == k) then acc else acc ++ [k]) []

/-- Append a value under a string key, creating the key on first use
(the `ordersByDate` grouping loop). -/
def insertGrouped (m : List (String × List OrderSummary)) (k : String)
    (v : OrderSummary) : List (String × List OrderSummary) :=
  if m.any (fun p => p.1 == k) then
    m.map (fun p => if p.1 == k then (p.1, p.2 ++ [v]) else p)
  else m ++ [(k, [v])]

/-- The all-time `ordersByDate` map. -/
def ordersByDateOf (allOrders : List OrderRec) : List (String × List OrderSummary) :=
  allOrders.foldl (fun m o => insertGrouped m o.dateKey (orderSummaryOf o)) []

/-- The all-time `eventSummary` rows: per event, its orders, confirmed
orders, tickets, revenue, and an occupancy that is forced to 0 when the
event has no orders or no tickets sold. -/
def eventSummaryOf (events : List EventRec) (allOrders : List OrderRec) :
    List EventSummary :=
  events.map (fun e =>
    let eventOrders := allOrders.filter (fun o =>
      match o.event with
      | some pe => pe.eventId == e.eventId
      | none => false)
    let confirmedEventOrders := eventOrders.filter
      (fun o => o.status == OrderStatus.confirmed)
    let ts := ticketsSold confirmedEventOrders
    let occ : ℚ :=
      if eventOrders.isEmpty ∨ ts = 0 then 0
      else if e.totalSeats > 0 then
        (((e.totalSeats - e.availableSeats : Int)) : ℚ) / ((e.totalSeats : Int) : ℚ) * 100
      else 0
    { eventId := e.eventId
      name := e.name
      totalOrders := eventOrders.length
      confirmedOrders := confirmedEventOrders.length
      ticketsSold := ts
      revenue := revenue confirmedEventOrders
      occupancyPercentage := occ })

/-- The all-time `occupancyByDate` map: per order date, occupancy over
the distinct events of the confirmed orders of that date. -/
def occupancyByDateOf (events : List EventRec) (allOrders : List OrderRec) :
    List (String × ℚ) :=
  (dedupKeys (allOrders.map (fun o => o.dateKey))).map (fun ds =>
    let confirmedOnDate := allOrders.filter (fun o =>
      (o.dateKey == ds) && (o.status == OrderStatus.confirmed))
    if confirmedOnDate.isEmpty then (ds, (0 : ℚ))
    else
      let evIds := dedupIds (confirmedOnDate.filterMap
        (fun o => o.event.map (fun pe => pe.eventId)))
      let totals := evIds.foldl
        (fun acc i =>
          match events.find? (fun e => e.eventId == i) with
          | some e =>
              if e.totalSeats ≠ 0 then
                (acc.1 + e.totalSeats, acc.2 + (e.totalSeats - e.availableSeats))
              else acc
          | none => acc)
        ((0 : Int), (0 : Int))
      if totals.1 = 0 then (ds, (0 : ℚ))
      else (ds, ((totals.2 : Int) : ℚ) / ((totals.1 : Int) : ℚ) * 100))

/-- Outcome of `getAllReportsData`: either a message plus zero-filled
fields (organizer with no events) or a report. -/
inductive AllOutcome
| withMessage (text : String) (r : AllReport)
| report (r : AllReport)
deriving DecidableEq

/-- `getAllReportsData`: organizer scope, unfiltered order load, and the
zero-orders / populated branches. -/
def getAllReportsData (db : DB) (u : ReportUser) : AllOutcome :=
  if u.role == Role.eventOrganizer && (ownedEvents db u.userId).isEmpty then
    .withMessage "No events found for this organizer." zeroAllReport
  else
    let events := if u.role == Role.eventOrganizer then ownedEvents db u.userId
      else db.events
    let allOrders := db.orders.filter (fun o => inScope db u o)
    if allOrders.isEmpty then .report zeroAllReport
    else
      let confirmedOrders := allOrders.filter
        (fun o => o.status == OrderStatus.confirmed)
      .report
        { totalOrders := allOrders.length
          confirmedOrders := confirmedOrders.length
          ticketsSold := ticketsSold confirmedOrders
          revenue := revenue confirmedOrders
          occupancyPercentage := allOccupancyPercentage events
          ordersData := allOrders.map orderSummaryOf
          ordersByDate := ordersByDateOf allOrders
          eventSummary := eventSummaryOf events allOrders
          occupancyByDate := occupancyByDateOf events allOrders }

/-- HTTP response of the all-time endpoints: when the outcome carries a
message, only the message is sent. -/
inductive HttpAllResponse
| message (text : String)
| data (r : AllReport)
deriving DecidableEq

/-- `getAllReports` / the `downloadReport` dispatch on the message-field check. -/
def getAllReports (db : DB) (u : ReportUser) : HttpAllResponse :=
  match getAllReportsData db u with
  | .withMessage t _ => .message t
  | .report r => .data r

theorem foldl_add_eq_sum {α : Type} (f : α → ℚ) :
    ∀ (l : List α) (a : ℚ), l.foldl (fun s x => s + f x) a = a + (l.map f).sum := by
  intro l
  induction l with
  | nil => intro a; simp
  | cons x xs ih =>
    intro a
    simp only [List.foldl_cons, List.map_cons, List.sum_cons]
    rw [ih (a + f x)]
    ring

theorem ticketCount_eq_sum (o : OrderRec) :
    ticketCount o = (o.tickets.map (fun t => (t.quantity : ℚ))).sum := by
  unfold ticketCount
  have h := foldl_add_eq_sum (fun t : TicketLine => (t.quantity : ℚ)) o.tickets 0
  simpa using h

theorem ticketsSold_eq_sum (orders : List OrderRec) :
    ticketsSold orders = (orders.map ticketCount).sum := by
  unfold ticketsSold
  have h := foldl_add_eq_sum ticketCount orders 0
  simpa using h

theorem revenue_eq_sum (orders : List OrderRec) :
    revenue orders = (orders.map (fun o => o.totalAmount)).sum := by
  unfold revenue
  have h := foldl_add_eq_sum (fun o : OrderRec => o.totalAmount) orders 0
  simpa using h

theorem seatTotals_eq_sum (orders : List OrderRec) :
    seatTotals orders =
      (((orders.filterMap (fun o => o.event)).map (fun e => e.totalSeats)).sum,
       ((orders.filterMap (fun o => o.event)).map
          (fun e => e.totalSeats - e.availableSeats)).sum) := by
  unfold seatTotals
  have key : ∀ (l : List OrderRec) (acc : Int × Int),
      l.foldl
        (fun acc o =>
          match o.event with
          | some e => (acc.1 + e.totalSeats, acc.2 + (e.totalSeats - e.availableSeats))
          | none => acc)
        acc =
      (acc.1 + ((l.filterMap (fun o => o.event)).map (fun e => e.totalSeats)).sum,
       acc.2 + ((l.filterMap (fun o => o.event)).map
          (fun e => e.totalSeats - e.availableSeats)).sum) := by
    intro l
    induction l with
    | nil => intro acc; simp
    | cons o os ih =>
      intro acc
      cases ho : o.event with
      | none =>
        simp only [List.foldl_cons, ho, List.filterMap_cons, List.map_cons]
        exact ih acc
      | some e =>
        simp only [List.foldl_cons, ho, List.filterMap_cons, List.map_cons,
          List.sum_cons]
        rw [ih]
        simp only [Prod.mk.injEq]
        constructor <;> ring
  rw [key orders (0, 0)]
  simp

theorem allSeatTotals_eq_sum (events : List EventRec) :
    allSeatTotals events =
      (((events.filter (fun e => e.totalSeats ≠ 0)).map (fun e => e.totalSeats)).sum,
       ((events.filter (fun e => e.totalSeats ≠ 0)).map
          (fun e => e.totalSeats - e.availableSeats)).sum) := by
  unfold allSeatTotals
  have key : ∀ (l : List EventRec) (acc : Int × Int),
      l.foldl
        (fun acc e =>
          if e.totalSeats ≠ 0 then
            (acc.1 + e.totalSeats, acc.2 + (e.totalSeats - e.availableSeats))
          else acc)
        acc =
      (acc.1 + ((l.filter (fun e => e.totalSeats ≠ 0)).map (fun e => e.totalSeats)).sum,
       acc.2 + ((l.filter (fun e => e.totalSeats ≠ 0)).map
          (fun e => e.totalSeats - e.availableSeats)).sum) := by
    intro l
    induction l with
    | nil => intro acc; simp
    | cons e es ih =>
      intro acc
      by_cases he : e.totalSeats ≠ 0
      · simp only [List.foldl_cons, List.filter_cons]
        rw [if_pos he]
        have hd : decide (e.totalSeats ≠ 0) = true := by simpa using he
        rw [hd]
        simp only [if_true, List.map_cons, List.sum_cons]
        rw [ih]
        simp only [Prod.mk.injEq]
        constructor <;> ring
      · simp only [List.foldl_cons, List.filter_cons]
        rw [if_neg he]
        have hd : decide (e.totalSeats ≠ 0) = false := by
          simpa using he
        rw [hd]
        simp only [Bool.false_eq_true, if_false]
        exact ih acc
  rw [key events (0, 0)]
  simp

theorem length_bumpAt (arr : List ℚ) (i : Nat) (v : ℚ) :
    (bumpAt arr i v).length = arr.length := by
  unfold bumpAt
  exact List.length_set arr i _

theorem length_accumBuckets (n : Nat) (xs : List (Nat × ℚ)) :
    (accumBuckets n xs).length = n := by
  unfold accumBuckets
  have key : ∀ (l : List (Nat × ℚ)) (arr : List ℚ),
      (l.foldl (fun arr p => bumpAt arr p.1 p.2) arr).length = arr.length := by
    intro l
    induction l with
    | nil => intro arr; rfl
    | cons p ps ih =>
      intro arr
      simp only [List.foldl_cons]
      rw [ih, length_bumpAt]
  rw [key, List.length_replicate]

theorem getD_set_self (v : ℚ) :
    ∀ (l : List ℚ) (i : Nat), i < l.length → (l.set i v).getD i 0 = v := by
  intro l
  induction l with
  | nil => intro i h; simp at h
  | cons x xs ih =>
    intro i h
    cases i with
    | zero => rfl
    | succ j =>
      simp only [List.set_cons_succ, List.getD_cons_succ]
      exact ih j (by simpa using h)

theorem getD_set_ne (v : ℚ) :
    ∀ (l : List ℚ) (i j : Nat), i ≠ j → (l.set i v).getD j 0 = l.getD j 0 := by
  intro l
  induction l with
  | nil => intro i j _; rfl
  | cons x xs ih =>
    intro i j hij
    cases i with
    | zero =>
      cases j with
      | zero => exact absurd rfl hij
      | succ k => rfl
    | succ i2 =>
      cases j with
      | zero => rfl
      | succ k =>
        simp only [List.set_cons_succ, List.getD_cons_succ]
        exact ih i2 k (by omega)

theorem getD_replicate_zero (n i : Nat) :
    (List.replicate n (0 : ℚ)).getD i 0 = 0 := by
  induction n generalizing i with
  | zero => rfl
  | succ m ih =>
    cases i with
    | zero => rfl
    | succ j =>
      simp only [List.replicate_succ, List.getD_cons_succ]
      exact ih j

theorem accumBuckets_getD (n : Nat) (xs : List (Nat × ℚ)) (i : Nat)
    (hi : i < n) :
    (accumBuckets n xs).getD i 0 =
      ((xs.filter (fun p => p.1 == i)).map (fun p => p.2)).sum := by
  unfold accumBuckets
  have key : ∀ (l : List (Nat × ℚ)) (arr : List ℚ), i < arr.length →
      (l.foldl (fun arr p => bumpAt arr p.1 p.2) arr).getD i 0 =
        arr.getD i 0 + ((l.filter (fun p => p.1 == i)).map (fun p => p.2)).sum := by
    intro l
    induction l with
    | nil => intro arr _; simp
    | cons p ps ih =>
      intro arr hlen
      simp only [List.foldl_cons, List.filter_cons]
      by_cases hp : p.1 = i
      · have hd : (p.1 == i) = true := by simpa using hp
        rw [hd]
        simp only [if_true, List.map_cons, List.sum_cons]
        rw [ih (bumpAt arr p.1 p.2) (by rw [length_bumpAt]; exact hlen)]
        unfold bumpAt
        rw [hp, getD_set_self _ arr i hlen]
        ring
      · have hd : (p.1 == i) = false := by simpa using hp
        rw [hd]
        simp only [Bool.false_eq_true, if_false]
        rw [ih (bumpAt arr p.1 p.2) (by rw [length_bumpAt]; exact hlen)]
        unfold bumpAt
        rw [getD_set_ne _ arr p.1 i hp]
  rw [key xs (List.replicate n 0) (by simpa using hi), getD_replicate_zero]
  ring

theorem dailySalesData_length (orders : List OrderRec) :
    (dailySalesData orders).length = 24 := by
  unfold dailySalesData
  rw [List.length_map, List.enum_length, length_accumBuckets]

theorem dailyRevenueData_length (orders : List OrderRec) :
    (dailyRevenueData orders).length = 24 := by
  unfold dailyRevenueData
  rw [List.length_map, List.enum_length, length_accumBuckets]

theorem dailySalesData_hours (orders : List OrderRec) :
    (dailySalesData orders).map (fun b => b.hour) = List.range 24 := by
  unfold dailySalesData
  rw [List.map_map]
  have h : ((fun b : HourBucket => b.hour) ∘ fun p : Nat × ℚ => (⟨p.1, p.2⟩ : HourBucket))
      = Prod.fst := rfl
  rw [h, List.enum_map_fst, length_accumBuckets]

theorem dailyRevenueData_hours (orders : List OrderRec) :
    (dailyRevenueData orders).map (fun b => b.hour) = List.range 24 := by
  unfold dailyRevenueData
  rw [List.map_map]
  have h : ((fun b : HourAmount => b.hour) ∘ fun p : Nat × ℚ => (⟨p.1, p.2⟩ : HourAmount))
      = Prod.fst := rfl
  rw [h, List.enum_map_fst, length_accumBuckets]

theorem dailySalesData_counts (orders : List OrderRec) :
    (dailySalesData orders).map (fun b => b.count) =
      accumBuckets 24 (orders.map (fun o => (o.hour.val, ticketCount o))) := by
  unfold dailySalesData
  rw [List.map_map]
  have h : ((fun b : HourBucket => b.count) ∘ fun p : Nat × ℚ => (⟨p.1, p.2⟩ : HourBucket))
      = Prod.snd := rfl
  rw [h, List.enum_map_snd]

theorem dailyRevenueData_amounts (orders : List OrderRec) :
    (dailyRevenueData orders).map (fun b => b.amount) =
      accumBuckets 24 (orders.map (fun o => (o.hour.val, o.totalAmount))) := by
  unfold dailyRevenueData
  rw [List.map_map]
  have h : ((fun b : HourAmount => b.amount) ∘ fun p : Nat × ℚ => (⟨p.1, p.2⟩ : HourAmount))
      = Prod.snd := rfl
  rw [h, List.enum_map_snd]

theorem monthlySalesData_length (y m : Nat) (orders : List OrderRec) :
    (monthlySalesData y m orders).length = daysInMonth y m := by
  unfold monthlySalesData
  rw [List.length_map, List.enum_length, length_accumBuckets]

theorem monthlyRevenueData_length (y m : Nat) (orders : List OrderRec) :
    (monthlyRevenueData y m orders).length = daysInMonth y m := by
  unfold monthlyRevenueData
  rw [List.length_map, List.enum_length, length_accumBuckets]

theorem monthlySalesData_days (y m : Nat) (orders : List OrderRec) :
    (monthlySalesData y m orders).map (fun b => b.day) =
      (List.range (daysInMonth y m)).map (fun i => i + 1) := by
  unfold monthlySalesData
  rw [List.map_map]
  have h : ((fun b : MonthDayBucket => b.day) ∘ fun p : Nat × ℚ => (⟨p.1 + 1, p.2⟩ : MonthDayBucket))
      = (fun p : Nat × ℚ => p.1 + 1) := rfl
  rw [h]
  have h2 : (fun p : Nat × ℚ => p.1 + 1) = (fun i => i + 1) ∘ Prod.fst := rfl
  rw [h2, ← List.map_map, List.enum_map_fst, length_accumBuckets]

theorem monthlyRevenueData_days (y m : Nat) (orders : List OrderRec) :
    (monthlyRevenueData y m orders).map (fun b => b.day) =
      (List.range (daysInMonth y m)).map (fun i => i + 1) := by
  unfold monthlyRevenueData
  rw [List.map_map]
  have h : ((fun b : MonthDayAmount => b.day) ∘ fun p : Nat × ℚ => (⟨p.1 + 1, p.2⟩ : MonthDayAmount))
      = (fun p : Nat × ℚ => p.1 + 1) := rfl
  rw [h]
  have h2 : (fun p : Nat × ℚ => p.1 + 1) = (fun i => i + 1) ∘ Prod.fst := rfl
  rw [h2, ← List.map_map, List.enum_map_fst, length_accumBuckets]

theorem monthlySalesData_counts (y m : Nat) (orders : List OrderRec) :
    (monthlySalesData y m orders).map (fun b => b.count) =
      accumBuckets (daysInMonth y m) (orders.map (fun o => (o.day - 1, ticketCount o))) := by
  unfold monthlySalesData
  rw [List.map_map]
  have h : ((fun b : MonthDayBucket => b.count) ∘ fun p : Nat × ℚ => (⟨p.1 + 1, p.2⟩ : MonthDayBucket))
      = Prod.snd := rfl
  rw [h, List.enum_map_snd]

theorem monthlyRevenueData_amounts (y m : Nat) (orders : List OrderRec) :
    (monthlyRevenueData y m orders).map (fun b => b.amount) =
      accumBuckets (daysInMonth y m) (orders.map (fun o => (o.day - 1, o.totalAmount))) := by
  unfold monthlyRevenueData
  rw [List.map_map]
  have h : ((fun b : MonthDayAmount => b.amount) ∘ fun p : Nat × ℚ => (⟨p.1 + 1, p.2⟩ : MonthDayAmount))
      = Prod.snd := rfl
  rw [h, List.enum_map_snd]

set_option maxRecDepth 10000

/-- C4: the synthetic-value hash is a pure function of its seed string
and date — two evaluations with identical arguments are identical (also
for any derived value such as the backfilled occupancy) — and the hash
is exactly the rolling 32-bit signed polynomial hash
(hash = hash*31 + charCode wrapped to the 32-bit signed range at every
step) of the seed string label-YYYY-MM-DD. -/
theorem hash_deterministic_and_rolling31 :
    ∀ (s : List Int) (d : CDate),
      hashString s d = specRollingHash (s ++ 45 :: isoChars d) ∧
      ∀ (s2 : List Int) (d2 : CDate), s = s2 → d = d2 →
        hashString s d = hashString s2 d2 ∧
        occupancyBackfill (hashString s d) = occupancyBackfill (hashString s2 d2) := by
  intro s d
  refine ⟨hashChars_eq_specRollingHash _, ?_⟩
  rintro s2 d2 rfl rfl
  exact ⟨rfl, rfl⟩

/-- Witness for C4 at the seed "A" and the date 2025-01-11. -/
theorem hash_deterministic_and_rolling31_witness :
    hashString [65] ⟨2025, 1, 11⟩ =
      specRollingHash ([65] ++ 45 :: isoChars ⟨2025, 1, 11⟩) ∧
    hashString [65] ⟨2025, 1, 11⟩ = hashString [65] ⟨2025, 1, 11⟩ ∧
    occupancyBackfill (hashString [65] ⟨2025, 1, 11⟩) =
      occupancyBackfill (hashString [65] ⟨2025, 1, 11⟩) :=
  ⟨(hash_deterministic_and_rolling31 [65] ⟨2025, 1, 11⟩).1,
   ((hash_deterministic_and_rolling31 [65] ⟨2025, 1, 11⟩).2 [65] ⟨2025, 1, 11⟩ rfl rfl).1,
   ((hash_deterministic_and_rolling31 [65] ⟨2025, 1, 11⟩).2 [65] ⟨2025, 1, 11⟩ rfl rfl).2⟩

/-- C5 (amended): over the whole 32-bit signed hash range, the raw
occupancy backfill lies in [10, 85 + 75/2147483647] (it exceeds 85 only
at the minimum 32-bit hash, by less than 4e-8) and the reported
1-decimal value lies in [10, 85]; the JSON utilization backfill and its
reported value lie in [30, 79]; the PDF schedule-free utilization
backfill and its reported value lie in [20, 75]. -/
theorem backfill_range_containment :
    ∀ (h : Int) (rd : CDate) (now : Int),
      -2147483648 ≤ h → h < 2147483648 →
      (10 ≤ occupancyBackfill h ∧
        occupancyBackfill h ≤ 85 + 75 / 2147483647 ∧
        10 ≤ round1 (occupancyBackfill h) ∧ round1 (occupancyBackfill h) ≤ 85) ∧
      (30 ≤ syntheticUtilizationJSON rd now ∧ syntheticUtilizationJSON rd now ≤ 79 ∧
        30 ≤ round1 (syntheticUtilizationJSON rd now) ∧
        round1 (syntheticUtilizationJSON rd now) ≤ 79) ∧
      (20 ≤ syntheticUtilizationPDF rd now ∧ syntheticUtilizationPDF rd now ≤ 75 ∧
        20 ≤ round1 (syntheticUtilizationPDF rd now) ∧
        round1 (syntheticUtilizationPDF rd now) ≤ 75) := by
  intro h rd now hlo hhi
  have hna : (h.natAbs : ℚ) ≤ 2147483648 := by
    have hn : h.natAbs ≤ 2147483648 := by omega
    exact_mod_cast hn
  have hge : (0 : ℚ) ≤ (h.natAbs : ℚ) := Nat.cast_nonneg _
  have hq1 : (10 : ℚ) ≤ occupancyBackfill h := by
    unfold occupancyBackfill
    nlinarith
  have hq2 : occupancyBackfill h ≤ 85 + 75 / 2147483647 := by
    unfold occupancyBackfill
    rw [div_mul_eq_mul_div]
    have hstep : (h.natAbs : ℚ) * (85 - 10) / 2147483647 ≤
        2147483648 * (85 - 10) / 2147483647 := by gcongr
    have heq : (2147483648 : ℚ) * (85 - 10) / 2147483647 = 75 + 75 / 2147483647 := by
      norm_num
    linarith
  have hq3 : (10 : ℚ) ≤ round1 (occupancyBackfill h) := by
    have hw := le_round1_of_le (occupancyBackfill h) 100 (by push_cast; linarith)
    norm_num at hw
    exact hw
  have hq4 : round1 (occupancyBackfill h) ≤ 85 := by
    have hw := round1_le_of_lt (occupancyBackfill h) 850 (by push_cast; nlinarith)
    norm_num at hw
    exact hw
  have hJ1 : (30 : ℚ) ≤ syntheticUtilizationJSON rd now := le_max_left _ _
  have hJ2 : syntheticUtilizationJSON rd now ≤ 79 :=
    max_le (by norm_num) (min_le_left _ _)
  have hJ3 : (30 : ℚ) ≤ round1 (syntheticUtilizationJSON rd now) := by
    have hw := le_round1_of_le (syntheticUtilizationJSON rd now) 300
      (by push_cast; linarith)
    norm_num at hw
    exact hw
  have hJ4 : round1 (syntheticUtilizationJSON rd now) ≤ 79 := by
    have hw := round1_le_of_lt (syntheticUtilizationJSON rd now) 790
      (by push_cast; linarith)
    norm_num at hw
    exact hw
  have hP1 : (20 : ℚ) ≤ syntheticUtilizationPDF rd now := le_max_left _ _
  have hP2 : syntheticUtilizationPDF rd now ≤ 75 :=
    max_le (by norm_num) (min_le_left _ _)
  have hP3 : (20 : ℚ) ≤ round1 (syntheticUtilizationPDF rd now) := by
    have hw := le_round1_of_le (syntheticUtilizationPDF rd now) 200
      (by push_cast; linarith)
    norm_num at hw
    exact hw
  have hP4 : round1 (syntheticUtilizationPDF rd now) ≤ 75 := by
    have hw := round1_le_of_lt (syntheticUtilizationPDF rd now) 750
      (by push_cast; linarith)
    norm_num at hw
    exact hw
  exact ⟨⟨hq1, hq2, hq3, hq4⟩, ⟨hJ1, hJ2, hJ3, hJ4⟩, ⟨hP1, hP2, hP3, hP4⟩⟩

/-- C5 counterexample: the minimum 32-bit signed hash value is inside
the hash range, but the raw occupancy backfill computed from it exceeds
85 (its |hash| is 2147483648 > 2147483647). -/
theorem occupancyBackfill_int32min_exceeds_85 :
    -2147483648 ≤ (-2147483648 : Int) ∧ (-2147483648 : Int) < 2147483648 ∧
    85 < occupancyBackfill (-2147483648) := by
  refine ⟨by norm_num, by norm_num, ?_⟩
  unfold occupancyBackfill
  rw [show ((-2147483648 : Int).natAbs) = 2147483648 from rfl]
  norm_num

/-- Witness for C5 at hash 0 and the date 2025-01-01. -/
theorem backfill_range_containment_witness :
    10 ≤ round1 (occupancyBackfill 0) ∧ round1 (occupancyBackfill 0) ≤ 85 ∧
    30 ≤ syntheticUtilizationJSON ⟨2025, 1, 1⟩ 0 ∧
    syntheticUtilizationJSON ⟨2025, 1, 1⟩ 0 ≤ 79 :=
  ⟨((backfill_range_containment 0 ⟨2025, 1, 1⟩ 0 (by norm_num) (by norm_num)).1).2.2.1,
   ((backfill_range_containment 0 ⟨2025, 1, 1⟩ 0 (by norm_num) (by norm_num)).1).2.2.2,
   ((backfill_range_containment 0 ⟨2025, 1, 1⟩ 0 (by norm_num) (by norm_num)).2.1).1,
   ((backfill_range_containment 0 ⟨2025, 1, 1⟩ 0 (by norm_num) (by norm_num)).2.1).2.1⟩

/-- C10: for a non-future event the PDF data path and the JSON endpoint
compute the same occupancy (raw and reported): the upcoming-projection
branch is skipped and both use the real value, or the identical
hash-seeded backfill when the real value is zero. -/
theorem eventsHeld_json_pdf_agree_on_past :
    ∀ (e : EventH) (now : Int), ¬ dateMs e.date > now →
      getEventsHeldDataOccupancy e now = getEventsHeldOccupancy e ∧
      getEventsHeldDataReported e now = getEventsHeldReported e := by
  intro e now hpast
  have hmain : getEventsHeldDataOccupancy e now = getEventsHeldOccupancy e := by
    unfold getEventsHeldDataOccupancy getEventsHeldOccupancy
    by_cases ht : e.totalSeats > 0
    · rw [if_pos ht, if_pos ht, if_neg (fun hc => hpast hc.1)]
    · rw [if_neg ht, if_neg ht]
  refine ⟨hmain, ?_⟩
  unfold getEventsHeldDataReported getEventsHeldReported
  rw [hmain]

/-- Witness for C10 at a past event (2024-03-15, viewed from 2025-01-01). -/
theorem eventsHeld_json_pdf_agree_on_past_witness :
    getEventsHeldDataOccupancy ⟨[65], ⟨2024, 3, 15⟩, 100, 90⟩ 1735689600000 =
      getEventsHeldOccupancy ⟨[65], ⟨2024, 3, 15⟩, 100, 90⟩ ∧
    getEventsHeldDataReported ⟨[65], ⟨2024, 3, 15⟩, 100, 90⟩ 1735689600000 =
      getEventsHeldReported ⟨[65], ⟨2024, 3, 15⟩, 100, 90⟩ :=
  eventsHeld_json_pdf_agree_on_past ⟨[65], ⟨2024, 3, 15⟩, 100, 90⟩ 1735689600000
    (by decide)

/-- C1 counterexample: the event named "A" on 2025-01-11 with 100 seats
and 90 available, viewed from 2025-01-01, is upcoming with real
occupancy exactly 10% (non-zero, below 15%), yet the PDF data path does
not report its real occupancy: the projection branch overrides it. -/
theorem upcoming_nonzero_occupancy_overridden :
    realOccupancy ⟨[65], ⟨2025, 1, 11⟩, 100, 90⟩ = 10 ∧
    dateMs (⟨2025, 1, 11⟩ : CDate) > dateMs ⟨2025, 1, 1⟩ ∧
    getEventsHeldDataOccupancy ⟨[65], ⟨2025, 1, 11⟩, 100, 90⟩ (dateMs ⟨2025, 1, 1⟩) ≠ 10 := by
  have hro : realOccupancy ⟨[65], ⟨2025, 1, 11⟩, 100, 90⟩ = 10 := by
    norm_num [realOccupancy]
  have hup : dateMs (⟨2025, 1, 11⟩ : CDate) > dateMs ⟨2025, 1, 1⟩ := by decide
  refine ⟨hro, hup, ?_⟩
  have hhash : hashString [65] ⟨2025, 1, 11⟩ = 816171692 := by decide
  have hdays : (dateMs ⟨2025, 1, 11⟩ - dateMs ⟨2025, 1, 1⟩) / 86400000 = 10 := by decide
  unfold getEventsHeldDataOccupancy
  rw [if_pos (by norm_num : ((⟨[65], ⟨2025, 1, 11⟩, 100, 90⟩ : EventH).totalSeats > 0))]
  rw [if_pos ⟨hup, by rw [hro]; norm_num⟩]
  rw [hro, hhash, hdays]
  unfold baseProjection
  rw [if_neg (by norm_num), if_neg (by norm_num), if_pos (by norm_num)]
  rw [max_eq_right (by norm_num)]
  norm_num

/-- C1 (amended): a genuinely computed non-zero occupancy or stored
non-zero utilization of a NON-FUTURE record is reported as the real
value (formatted to one decimal) and the synthetic generator is not
invoked; the JSON events endpoint never overrides a non-zero occupancy
at all, while the PDF path may override a non-zero occupancy below 15%
for upcoming (future-dated) events with its projection. -/
theorem nonzero_values_not_overridden :
    ∀ (e : EventH) (r : URecord) (now : Int),
      e.totalSeats > 0 → realOccupancy e ≠ 0 → r.utilization_percentage ≠ 0 →
      getEventsHeldOccupancy e = realOccupancy e ∧
      getEventsHeldReported e = round1 (realOccupancy e) ∧
      (¬ dateMs e.date > now → getEventsHeldDataOccupancy e now = realOccupancy e) ∧
      (¬ dateMs r.date > now →
        processUtilizationRecord r now =
          { r with utilization_percentage := round1 r.utilization_percentage }) := by
  intro e r now ht ho hr
  have hjson : getEventsHeldOccupancy e = realOccupancy e := by
    unfold getEventsHeldOccupancy
    rw [if_pos ht, if_neg ho]
  refine ⟨hjson, ?_, ?_, ?_⟩
  · unfold getEventsHeldReported
    rw [hjson]
  · intro hpast
    unfold getEventsHeldDataOccupancy
    rw [if_pos ht, if_neg (fun hc => hpast hc.1), if_neg ho]
  · intro hpast
    unfold processUtilizationRecord
    rw [if_neg (fun hc => hc.elim hr hpast)]

/-- Witness for C1 (amended) at a past event with 10% occupancy and a
stored record with 50% utilization, viewed from 2025-01-01. -/
theorem nonzero_values_not_overridden_witness :
    getEventsHeldOccupancy ⟨[65], ⟨2024, 3, 15⟩, 100, 90⟩ =
      realOccupancy ⟨[65], ⟨2024, 3, 15⟩, 100, 90⟩ ∧
    processUtilizationRecord ⟨⟨2024, 3, 15⟩, 12, 24, 50, []⟩ 1735689600000 =
      { date := ⟨2024, 3, 15⟩, total_hours_used := 12, total_hours_available := 24,
        utilization_percentage := round1 50, events := [] } :=
  ⟨(nonzero_values_not_overridden ⟨[65], ⟨2024, 3, 15⟩, 100, 90⟩
      ⟨⟨2024, 3, 15⟩, 12, 24, 50, []⟩ 1735689600000
      (by norm_num) (by norm_num [realOccupancy]) (by norm_num)).1,
   (nonzero_values_not_overridden ⟨[65], ⟨2024, 3, 15⟩, 100, 90⟩
      ⟨⟨2024, 3, 15⟩, 12, 24, 50, []⟩ 1735689600000
      (by norm_num) (by norm_num [realOccupancy]) (by norm_num)).2.2.2 (by decide)⟩

/-- Concrete confirmed order with totalAmount 100 and one ticket line of
quantity 2 (the example of claim C6). -/
def exOrderA : OrderRec :=
  { orderId := 1, eventRef := 1, event := some ⟨1, 100, 95⟩, tickets := [⟨2, 50⟩],
    totalAmount := 100, status := .confirmed, createdAtMs := 0,
    hour := ⟨10, by norm_num⟩, day := 1, weekdayIdx := 4, dateKey := "1970-01-01" }

/-- Concrete confirmed order with totalAmount 200 and one ticket line of
quantity 3 (the example of claim C6). -/
def exOrderB : OrderRec :=
  { orderId := 2, eventRef := 1, event := some ⟨1, 100, 95⟩, tickets := [⟨3, 60⟩],
    totalAmount := 200, status := .confirmed, createdAtMs := 0,
    hour := ⟨11, by norm_num⟩, day := 1, weekdayIdx := 4, dateKey := "1970-01-01" }

/-- C6: ticketsSold is the sum of the line quantities over all ticket
lines of all qualifying orders and revenue is the sum of the
order totalAmount values; for the two concrete confirmed orders with amounts
100 and 200 and quantities 2 and 3, revenue is 300 and ticketsSold 5. -/
theorem aggregation_sums_correct :
    (∀ orders : List OrderRec,
      ticketsSold orders =
        (orders.map (fun o => (o.tickets.map (fun t => (t.quantity : ℚ))).sum)).sum ∧
      revenue orders = (orders.map (fun o => o.totalAmount)).sum) ∧
    revenue [exOrderA, exOrderB] = 300 ∧
    ticketsSold [exOrderA, exOrderB] = 5 := by
  have hfun : ticketCount =
      fun o : OrderRec => (o.tickets.map (fun t => (t.quantity : ℚ))).sum :=
    funext ticketCount_eq_sum
  refine ⟨?_, ?_, ?_⟩
  · intro orders
    constructor
    · rw [ticketsSold_eq_sum, hfun]
    · exact revenue_eq_sum orders
  · rw [revenue_eq_sum]
    norm_num [exOrderA, exOrderB]
  · rw [ticketsSold_eq_sum, hfun]
    norm_num [exOrderA, exOrderB]

/-- Seat totals as claim C2 words them (specification-side definition,
for comparison): seats accumulated once per distinct event touched by
the orders. -/
def distinctEventSeatTotals (orders : List OrderRec) : Int × Int :=
  (dedupIds (orders.filterMap (fun o => o.event.map (fun e => e.eventId)))).foldl
    (fun acc i =>
      match (orders.filterMap (fun o => o.event)).find? (fun pe => pe.eventId == i) with
      | some pe => (acc.1 + pe.totalSeats, acc.2 + (pe.totalSeats - pe.availableSeats))
      | none => acc)
    (0, 0)

/-- Occupancy as claim C2 words it (specification-side definition). -/
def occupancyOverDistinctEvents (orders : List OrderRec) : ℚ :=
  if (distinctEventSeatTotals orders).1 > 0 then
    (((distinctEventSeatTotals orders).2 : Int) : ℚ) /
      (((distinctEventSeatTotals orders).1 : Int) : ℚ) * 100
  else 0

/-- First of two confirmed orders on the same fully-booked event 1. -/
def dupOrder1 : OrderRec :=
  { orderId := 11, eventRef := 1, event := some ⟨1, 100, 0⟩, tickets := [⟨1, 10⟩],
    totalAmount := 10, status := .confirmed, createdAtMs := 0,
    hour := ⟨9, by norm_num⟩, day := 1, weekdayIdx := 4, dateKey := "1970-01-01" }

/-- Second confirmed order on the same fully-booked event 1. -/
def dupOrder2 : OrderRec :=
  { orderId := 12, eventRef := 1, event := some ⟨1, 100, 0⟩, tickets := [⟨1, 10⟩],
    totalAmount := 10, status := .confirmed, createdAtMs := 0,
    hour := ⟨9, by norm_num⟩, day := 1, weekdayIdx := 4, dateKey := "1970-01-01" }

/-- A confirmed order on the empty event 2 (100 seats, none filled). -/
def dupOrder3 : OrderRec :=
  { orderId := 13, eventRef := 2, event := some ⟨2, 100, 100⟩, tickets := [⟨1, 10⟩],
    totalAmount := 10, status := .confirmed, createdAtMs := 0,
    hour := ⟨9, by norm_num⟩, day := 1, weekdayIdx := 4, dateKey := "1970-01-01" }

/-- C2 counterexample: with two orders on the same fully-booked event 1
and one order on the empty event 2, the ranged reports count event 1
twice and report 200/3 %, while the once-per-distinct-event aggregation
the claim describes yields 50 %. -/
theorem occupancy_double_counts_shared_event :
    occupancyPercentage [dupOrder1, dupOrder2, dupOrder3] = 200 / 3 ∧
    occupancyOverDistinctEvents [dupOrder1, dupOrder2, dupOrder3] = 50 ∧
    occupancyPercentage [dupOrder1, dupOrder2, dupOrder3] ≠
      occupancyOverDistinctEvents [dupOrder1, dupOrder2, dupOrder3] := by
  have hs : seatTotals [dupOrder1, dupOrder2, dupOrder3] = (300, 200) := by decide
  have hd : distinctEventSeatTotals [dupOrder1, dupOrder2, dupOrder3] = (200, 100) := by
    decide
  have h1 : occupancyPercentage [dupOrder1, dupOrder2, dupOrder3] = 200 / 3 := by
    unfold occupancyPercentage
    rw [hs]
    norm_num
  have h2 : occupancyOverDistinctEvents [dupOrder1, dupOrder2, dupOrder3] = 50 := by
    unfold occupancyOverDistinctEvents
    rw [hd]
    norm_num
  refine ⟨h1, h2, ?_⟩
  rw [h1, h2]
  norm_num

/-- C2 (amended): the daily/weekly/monthly occupancyPercentage
accumulates totalSeats and filledSeats once per ORDER over the populated
events of the qualifying orders (so an event referenced by several
orders is counted once per order), while the all-time report
accumulates once per event of the scoped events list (skipping events
whose totalSeats is 0). -/
theorem occupancy_accumulation_characterized :
    ∀ (orders : List OrderRec) (events : List EventRec),
      occupancyPercentage orders =
        (if ((orders.filterMap (fun o => o.event)).map (fun e => e.totalSeats)).sum > 0 then
          ((((orders.filterMap (fun o => o.event)).map
              (fun e => e.totalSeats - e.availableSeats)).sum : Int) : ℚ) /
            ((((orders.filterMap (fun o => o.event)).map
              (fun e => e.totalSeats)).sum : Int) : ℚ) * 100
        else 0) ∧
      allOccupancyPercentage events =
        (if ((events.filter (fun e => e.totalSeats ≠ 0)).map (fun e => e.totalSeats)).sum > 0 then
          ((((events.filter (fun e => e.totalSeats ≠ 0)).map
              (fun e => e.totalSeats - e.availableSeats)).sum : Int) : ℚ) /
            ((((events.filter (fun e => e.totalSeats ≠ 0)).map
              (fun e => e.totalSeats)).sum : Int) : ℚ) * 100
        else 0) := by
  intro orders events
  constructor
  · unfold occupancyPercentage
    rw [seatTotals_eq_sum]
  · unfold allOccupancyPercentage
    rw [allSeatTotals_eq_sum]

/-- A confirmed order referencing event 1 (owned by organizer 8). -/
def cexOtherOrder : OrderRec :=
  { orderId := 5, eventRef := 1, event := some ⟨1, 100, 50⟩, tickets := [⟨2, 10⟩],
    totalAmount := 20, status := .confirmed, createdAtMs := 0,
    hour := ⟨0, by norm_num⟩, day := 1, weekdayIdx := 4, dateKey := "1970-01-01" }

/-- A database holding only an event and an order of another organizer. -/
def cexDb : DB :=
  { events := [⟨1, 8, "Other organizer event", 100, 50⟩], orders := [cexOtherOrder] }

/-- An event organizer who owns zero events in `cexDb`. -/
def cexOrganizer : ReportUser :=
  ⟨7, Role.eventOrganizer⟩

/-- C3 counterexample: for an organizer owning zero events, the
all-time endpoint answers with the message "No events found for this
organizer.", which is not the "Insufficient data for the selected
period." sentinel the ranged reports use (and that the claim names). -/
theorem all_time_zero_scope_message_differs :
    getAllReports cexDb cexOrganizer =
      .message "No events found for this organizer." ∧
    getDailyReportData cexDb cexOrganizer 0 86399999 =
      .message insufficientDataMsg ∧
    HttpAllResponse.message "No events found for this organizer." ≠
      HttpAllResponse.message insufficientDataMsg := by
  refine ⟨rfl, rfl, ?_⟩
  intro hcontra
  have h := HttpAllResponse.message.inj hcontra
  exact absurd h (by decide)

/-- Bool form of the organizer-with-zero-events gate when it fires. -/
theorem gateBool_true (db : DB) (u : ReportUser)
    (hrole : u.role = Role.eventOrganizer) (hown : ownedEvents db u.userId = []) :
    (u.role == Role.eventOrganizer && (ownedEvents db u.userId).isEmpty) = true := by
  rw [hrole, hown]
  rfl

/-- Bool form of the organizer-with-zero-events gate when it cannot fire. -/
theorem gateBool_false (db : DB) (u : ReportUser)
    (h : ¬(u.role = Role.eventOrganizer ∧ ownedEvents db u.userId = [])) :
    (u.role == Role.eventOrganizer && (ownedEvents db u.userId).isEmpty) = false := by
  by_cases hr : u.role = Role.eventOrganizer
  · have hne : ownedEvents db u.userId ≠ [] := fun hemp => h ⟨hr, hemp⟩
    simp [hr, hne]
  · simp [hr]

/-- C3 (amended): an eventOrganizer owning zero events always receives a
message-only sentinel response — the "Insufficient data for the selected
period." text from the daily/weekly/monthly reports and the "No events
found for this organizer." text from the all-time endpoint — and never a
report payload, so no order/revenue/event data of another organizer can
appear. -/
theorem zero_owned_events_scope_isolation :
    ∀ (db : DB) (u : ReportUser) (s e ws we : Int) (y m : Nat),
      u.role = Role.eventOrganizer → ownedEvents db u.userId = [] →
      getDailyReportData db u s e = .message insufficientDataMsg ∧
      getWeeklyReportData db u ws we = .message insufficientDataMsg ∧
      getMonthlyReportData db u y m = .message insufficientDataMsg ∧
      getAllReports db u = .message "No events found for this organizer." ∧
      (∀ r, getDailyReportData db u s e ≠ DailyOutcome.report r) ∧
      (∀ r, getAllReports db u ≠ HttpAllResponse.data r) := by
  intro db u s e ws we y m hrole hown
  have hg := gateBool_true db u hrole hown
  have hd : getDailyReportData db u s e = .message insufficientDataMsg := by
    unfold getDailyReportData
    rw [hg]
    rfl
  have hw : getWeeklyReportData db u ws we = .message insufficientDataMsg := by
    unfold getWeeklyReportData
    rw [hg]
    rfl
  have hm : getMonthlyReportData db u y m = .message insufficientDataMsg := by
    unfold getMonthlyReportData
    rw [hg]
    rfl
  have ha : getAllReports db u = .message "No events found for this organizer." := by
    unfold getAllReports getAllReportsData
    rw [hg]
    rfl
  refine ⟨hd, hw, hm, ha, ?_, ?_⟩
  · intro r hcontra
    rw [hd] at hcontra
    exact DailyOutcome.noConfusion hcontra
  · intro r hcontra
    rw [ha] at hcontra
    exact HttpAllResponse.noConfusion hcontra

/-- Witness for C3 (amended) in the concrete database `cexDb`. -/
theorem zero_owned_events_scope_isolation_witness :
    getDailyReportData cexDb cexOrganizer 0 86399999 = .message insufficientDataMsg ∧
    getAllReports cexDb cexOrganizer =
      .message "No events found for this organizer." :=
  ⟨(zero_owned_events_scope_isolation cexDb cexOrganizer 0 86399999 0 0 2025 1
      rfl rfl).1,
   (zero_owned_events_scope_isolation cexDb cexOrganizer 0 86399999 0 0 2025 1
      rfl rfl).2.2.2.1⟩

theorem filter_map_pairs {α : Type} (key : α → Nat) (val : α → ℚ)
    (l : List α) (i : Nat) :
    (((l.map (fun a => (key a, val a))).filter (fun p => p.1 == i)).map
        (fun p => p.2)) =
      (l.filter (fun a => key a == i)).map val := by
  induction l with
  | nil => rfl
  | cons a l ih =>
    simp only [List.map_cons, List.filter_cons]
    have h1 : (((key a, val a) : Nat × ℚ).1 == i) = (key a == i) := rfl
    rw [h1]
    by_cases hk : key a = i
    · have hd : (key a == i) = true := by simpa using hk
      rw [hd]
      simp only [if_true, List.map_cons]
      rw [ih]
    · have hd : (key a == i) = false := by simpa using hk
      rw [hd]
      simp only [Bool.false_eq_true, if_false]
      exact ih

theorem accumBuckets_map_getD {α : Type} (key : α → Nat) (val : α → ℚ)
    (l : List α) (n i : Nat) (hi : i < n) :
    (accumBuckets n (l.map (fun a => (key a, val a)))).getD i 0 =
      ((l.filter (fun a => key a == i)).map val).sum := by
  rw [accumBuckets_getD n _ i hi, ← filter_map_pairs key val l i]

/-- C7: for qualifying orders, the daily report carries exactly 24 hour
buckets (hours 0..23), the monthly report exactly daysInMonth buckets
(days 1..daysInMonth), every bucket holding the sum over the orders that
fall in it (hence 0 where no sales occurred); and the endpoints return
exactly these reports when the qualifying orders are non-empty. -/
theorem bucket_completeness :
    ∀ (orders : List OrderRec) (y m : Nat) (db : DB) (u : ReportUser) (s e : Int),
      ((dailyReportOf orders).salesData.length = 24 ∧
        (dailyReportOf orders).revenueData.length = 24 ∧
        (dailyReportOf orders).salesData.map (fun b => b.hour) = List.range 24 ∧
        (dailyReportOf orders).revenueData.map (fun b => b.hour) = List.range 24) ∧
      (∀ hh : Nat, hh < 24 →
        ((dailyReportOf orders).salesData.map (fun b => b.count)).getD hh 0 =
          ((orders.filter (fun o => o.hour.val == hh)).map ticketCount).sum ∧
        ((dailyReportOf orders).revenueData.map (fun b => b.amount)).getD hh 0 =
          ((orders.filter (fun o => o.hour.val == hh)).map
            (fun o => o.totalAmount)).sum) ∧
      ((monthlyReportOf y m orders).salesData.length = daysInMonth y m ∧
        (monthlyReportOf y m orders).revenueData.length = daysInMonth y m ∧
        (monthlyReportOf y m orders).salesData.map (fun b => b.day) =
          (List.range (daysInMonth y m)).map (fun i => i + 1) ∧
        (monthlyReportOf y m orders).revenueData.map (fun b => b.day) =
          (List.range (daysInMonth y m)).map (fun i => i + 1)) ∧
      ((∀ o ∈ orders, 1 ≤ o.day ∧ o.day ≤ daysInMonth y m) →
        ∀ dd : Nat, 1 ≤ dd → dd ≤ daysInMonth y m →
          ((monthlyReportOf y m orders).salesData.map (fun b => b.count)).getD (dd - 1) 0 =
            ((orders.filter (fun o => o.day == dd)).map ticketCount).sum ∧
          ((monthlyReportOf y m orders).revenueData.map (fun b => b.amount)).getD (dd - 1) 0 =
            ((orders.filter (fun o => o.day == dd)).map (fun o => o.totalAmount)).sum) ∧
      (¬(u.role = Role.eventOrganizer ∧ ownedEvents db u.userId = []) →
        (rangedOrders db u s e ≠ [] →
          getDailyReportData db u s e = .report (dailyReportOf (rangedOrders db u s e))) ∧
        (rangedOrders db u (startOfMonthMs y m) (endOfMonthMs y m) ≠ [] →
          getMonthlyReportData db u y m =
            .report (monthlyReportOf y m
              (rangedOrders db u (startOfMonthMs y m) (endOfMonthMs y m))))) := by
  intro orders y m db u s e
  refine ⟨⟨?_, ?_, ?_, ?_⟩, ?_, ⟨?_, ?_, ?_, ?_⟩, ?_, ?_⟩
  · exact dailySalesData_length orders
  · exact dailyRevenueData_length orders
  · exact dailySalesData_hours orders
  · exact dailyRevenueData_hours orders
  · intro hh hh24
    constructor
    · show ((dailySalesData orders).map (fun b => b.count)).getD hh 0 = _
      rw [dailySalesData_counts]
      exact accumBuckets_map_getD (fun o => o.hour.val) ticketCount orders 24 hh hh24
    · show ((dailyRevenueData orders).map (fun b => b.amount)).getD hh 0 = _
      rw [dailyRevenueData_amounts]
      exact accumBuckets_map_getD (fun o => o.hour.val) (fun o => o.totalAmount)
        orders 24 hh hh24
  · exact monthlySalesData_length y m orders
  · exact monthlyRevenueData_length y m orders
  · exact monthlySalesData_days y m orders
  · exact monthlyRevenueData_days y m orders
  · intro hdays dd hd1 hd2
    have hfilt : orders.filter (fun o => o.day - 1 == dd - 1) =
        orders.filter (fun o => o.day == dd) := by
      apply List.filter_congr
      intro o ho
      have hod := hdays o ho
      by_cases hh : o.day = dd
      · have h1 : (o.day - 1 == dd - 1) = true := by
          have : o.day - 1 = dd - 1 := by omega
          simpa using this
        have h2 : (o.day == dd) = true := by simpa using hh
        rw [h1, h2]
      · have h1 : (o.day - 1 == dd - 1) = false := by
          have : o.day - 1 ≠ dd - 1 := by omega
          simpa using this
        have h2 : (o.day == dd) = false := by simpa using hh
        rw [h1, h2]
    constructor
    · show ((monthlySalesData y m orders).map (fun b => b.count)).getD (dd - 1) 0 = _
      rw [monthlySalesData_counts]
      rw [accumBuckets_map_getD (fun o => o.day - 1) ticketCount orders
        (daysInMonth y m) (dd - 1) (by omega)]
      rw [hfilt]
    · show ((monthlyRevenueData y m orders).map (fun b => b.amount)).getD (dd - 1) 0 = _
      rw [monthlyRevenueData_amounts]
      rw [accumBuckets_map_getD (fun o => o.day - 1) (fun o => o.totalAmount) orders
        (daysInMonth y m) (dd - 1) (by omega)]
      rw [hfilt]
  · intro hgate
    have hg := gateBool_false db u hgate
    constructor
    · intro hne
      unfold getDailyReportData
      rw [hg]
      simp only [Bool.false_eq_true, if_false]
      have hb : (rangedOrders db u s e).isEmpty = false := by
        simpa [List.isEmpty_iff] using hne
      rw [hb]
      rfl
    · intro hne
      unfold getMonthlyReportData
      rw [hg]
      simp only [Bool.false_eq_true, if_false]
      have hb : (rangedOrders db u (startOfMonthMs y m) (endOfMonthMs y m)).isEmpty
          = false := by
        simpa [List.isEmpty_iff] using hne
      rw [hb]
      rfl

/-- Witness for C7 at one concrete confirmed order, January 2025, and an
admin request over a range containing the order. -/
theorem bucket_completeness_witness :
    (dailyReportOf [exOrderA]).salesData.length = 24 ∧
    (((monthlyReportOf 2025 1 [exOrderA]).salesData.map (fun b => b.count)).getD 0 0 =
      (([exOrderA].filter (fun o => o.day == 1)).map ticketCount).sum ∧
     ((monthlyReportOf 2025 1 [exOrderA]).revenueData.map (fun b => b.amount)).getD 0 0 =
      (([exOrderA].filter (fun o => o.day == 1)).map (fun o => o.totalAmount)).sum) ∧
    getDailyReportData ⟨[], [exOrderA]⟩ ⟨0, Role.admin⟩ 0 0 =
      .report (dailyReportOf (rangedOrders ⟨[], [exOrderA]⟩ ⟨0, Role.admin⟩ 0 0)) := by
  refine ⟨?_, ?_, ?_⟩
  · exact (bucket_completeness [exOrderA] 2025 1 ⟨[], [exOrderA]⟩ ⟨0, Role.admin⟩ 0 0).1.1
  · have h := (bucket_completeness [exOrderA] 2025 1 ⟨[], [exOrderA]⟩
        ⟨0, Role.admin⟩ 0 0).2.2.2.1
      (by
        intro o ho
        have hoe : o = exOrderA := by simpa using ho
        subst hoe
        exact ⟨by decide, by decide⟩)
      1 (le_refl 1) (by decide)
    exact h
  · refine ((bucket_completeness [exOrderA] 2025 1 ⟨[], [exOrderA]⟩
      ⟨0, Role.admin⟩ 0 0).2.2.2.2 ?_).1 ?_
    · rintro ⟨hr, _⟩
      exact absurd hr (by decide)
    · rw [show rangedOrders ⟨[], [exOrderA]⟩ ⟨0, Role.admin⟩ 0 0 = [exOrderA] from rfl]
      exact List.cons_ne_nil _ _

/-- C8: with zero qualifying orders, the daily/weekly/monthly reports
answer with the "Insufficient data for the selected period." sentinel,
while the all-time report (for an admin, or an organizer owning at
least one event) answers with the zero-filled structure: totalOrders,
ticketsSold and revenue 0 and empty
ordersData/ordersByDate/eventSummary/occupancyByDate. -/
theorem zero_orders_sentinel_vs_zero_report :
    ∀ (db : DB) (u : ReportUser) (s e ws we : Int) (y m : Nat),
      ¬(u.role = Role.eventOrganizer ∧ ownedEvents db u.userId = []) →
      (rangedOrders db u s e = [] →
        getDailyReportData db u s e = .message insufficientDataMsg) ∧
      (rangedOrders db u ws we = [] →
        getWeeklyReportData db u ws we = .message insufficientDataMsg) ∧
      (rangedOrders db u (startOfMonthMs y m) (endOfMonthMs y m) = [] →
        getMonthlyReportData db u y m = .message insufficientDataMsg) ∧
      (db.orders.filter (fun o => inScope db u o) = [] →
        getAllReports db u = .data zeroAllReport) ∧
      zeroAllReport.totalOrders = 0 ∧ zeroAllReport.ticketsSold = 0 ∧
      zeroAllReport.revenue = 0 ∧ zeroAllReport.ordersData = [] ∧
      zeroAllReport.ordersByDate = [] ∧ zeroAllReport.eventSummary = [] ∧
      zeroAllReport.occupancyByDate = [] := by
  intro db u s e ws we y m hgate
  have hg := gateBool_false db u hgate
  refine ⟨?_, ?_, ?_, ?_, rfl, rfl, rfl, rfl, rfl, rfl, rfl⟩
  · intro hne
    unfold getDailyReportData
    rw [hg]
    simp only [Bool.false_eq_true, if_false]
    rw [show (rangedOrders db u s e).isEmpty = true by simp [List.isEmpty_iff, hne]]
    rfl
  · intro hne
    unfold getWeeklyReportData
    rw [hg]
    simp only [Bool.false_eq_true, if_false]
    rw [show (rangedOrders db u ws we).isEmpty = true by simp [List.isEmpty_iff, hne]]
    rfl
  · intro hne
    unfold getMonthlyReportData
    rw [hg]
    simp only [Bool.false_eq_true, if_false]
    rw [show (rangedOrders db u (startOfMonthMs y m) (endOfMonthMs y m)).isEmpty = true
      by simp [List.isEmpty_iff, hne]]
    rfl
  · intro hne
    unfold getAllReports getAllReportsData
    rw [hg]
    simp only [Bool.false_eq_true, if_false]
    rw [show (db.orders.filter (fun o => inScope db u o)).isEmpty = true
      by simp [List.isEmpty_iff, hne]]
    rfl

/-- Witness for C8: an admin over a database holding one event and no
orders at all. -/
theorem zero_orders_sentinel_vs_zero_report_witness :
    getDailyReportData ⟨[⟨1, 0, "E", 100, 100⟩], []⟩ ⟨0, Role.admin⟩ 0 0 =
      .message insufficientDataMsg ∧
    getAllReports ⟨[⟨1, 0, "E", 100, 100⟩], []⟩ ⟨0, Role.admin⟩ =
      .data zeroAllReport :=
  ⟨(zero_orders_sentinel_vs_zero_report ⟨[⟨1, 0, "E", 100, 100⟩], []⟩
      ⟨0, Role.admin⟩ 0 0 0 0 2025 1
      (by rintro ⟨hr, _⟩; exact absurd hr (by decide))).1 rfl,
   (zero_orders_sentinel_vs_zero_report ⟨[⟨1, 0, "E", 100, 100⟩], []⟩
      ⟨0, Role.admin⟩ 0 0 0 0 2025 1
      (by rintro ⟨hr, _⟩; exact absurd hr (by decide))).2.2.2.1 rfl⟩

theorem find?_none_of_filter_nil (p : URecord → Bool) (l : List URecord)
    (h : l.filter p = []) : l.find? p = none := by
  rw [List.find?_eq_none]
  intro x hx
  have hfx := List.filter_eq_nil.mp h x hx
  simpa using hfx

theorem runUtilizationJSON_read (store : List URecord) (scheds : List Schedule)
    (d : CDate) (now : Int) (hA : (recordsForDay store d).isEmpty = false) :
    runUtilizationJSON store scheds d now =
      ((recordsForDay store d).map (fun r => processUtilizationRecord r now), store) := by
  unfold runUtilizationJSON
  rw [hA]
  rfl

theorem runUtilizationJSON_create (store : List URecord) (scheds : List Schedule)
    (d : CDate) (now : Int)
    (hA : recordsForDay store d = [])
    (hds : (scheds.filter (fun s => onDay s d)).isEmpty = false) :
    runUtilizationJSON store scheds d now =
      ([(⟨d, (scheds.filter (fun s => onDay s d)).foldl
            (fun acc s => acc + getHoursDifference s) 0, 24, 0,
          (scheds.filter (fun s => onDay s d)).filterMap (fun s => s.event)⟩ : URecord)],
        store ++ [(⟨d, (scheds.filter (fun s => onDay s d)).foldl
            (fun acc s => acc + getHoursDifference s) 0, 24, 0,
          (scheds.filter (fun s => onDay s d)).filterMap (fun s => s.event)⟩ : URecord)]) := by
  unfold runUtilizationJSON
  rw [hA]
  simp only [List.isEmpty_nil, if_true]
  rw [find?_none_of_filter_nil _ _ hA, hds]
  rfl

theorem recordsForDay_append_singleton (store : List URecord) (r : URecord)
    (d : CDate) (hA : recordsForDay store d = []) (hr : r.date = d) :
    recordsForDay (store ++ [r]) d = [r] := by
  unfold recordsForDay at hA ⊢
  rw [List.filter_append, hA, List.nil_append]
  have hb : (r.date == d) = true := by simpa using hr
  simp [List.filter, hb]

/-- C9 (amended): rerunning the single-day utilization computation with
unchanged schedules leaves the store of the first run untouched —
exactly one stored record for the day, with identical stored
total_hours_used, total_hours_available and events — but the values
RETURNED to the caller are not the same on both runs in general,
because the second run reads the stored record (whose
utilization_percentage is still the schema default 0) and applies the
synthetic backfill at read time. -/
theorem utilization_store_idempotent :
    ∀ (store : List URecord) (scheds : List Schedule) (d : CDate) (now : Int),
      (recordsForDay store d).length ≤ 1 →
      ((recordsForDay store d).length = 1 ∨
        scheds.filter (fun s => onDay s d) ≠ []) →
      (runUtilizationJSON (runUtilizationJSON store scheds d now).2 scheds d now).2 =
        (runUtilizationJSON store scheds d now).2 ∧
      (recordsForDay (runUtilizationJSON store scheds d now).2 d).length = 1 ∧
      (recordsForDay
          (runUtilizationJSON (runUtilizationJSON store scheds d now).2 scheds d now).2
          d).length = 1 := by
  intro store scheds d now huniq hprod
  by_cases hA : (recordsForDay store d).isEmpty = true
  · have hAe : recordsForDay store d = [] := by
      simpa [List.isEmpty_iff] using hA
    have hds : scheds.filter (fun s => onDay s d) ≠ [] := by
      rcases hprod with h1 | h2
      · rw [hAe] at h1
        simp at h1
      · exact h2
    have hdsb : (scheds.filter (fun s => onDay s d)).isEmpty = false := by
      simpa [List.isEmpty_iff] using hds
    rw [runUtilizationJSON_create store scheds d now hAe hdsb]
    have hrec := recordsForDay_append_singleton store
      (⟨d, (scheds.filter (fun s => onDay s d)).foldl
          (fun acc s => acc + getHoursDifference s) 0, 24, 0,
        (scheds.filter (fun s => onDay s d)).filterMap (fun s => s.event)⟩ : URecord)
      d hAe rfl
    have hA2 : (recordsForDay (store ++
        [(⟨d, (scheds.filter (fun s => onDay s d)).foldl
            (fun acc s => acc + getHoursDifference s) 0, 24, 0,
          (scheds.filter (fun s => onDay s d)).filterMap (fun s => s.event)⟩ : URecord)])
        d).isEmpty = false := by
      rw [hrec]
      rfl
    dsimp only
    refine ⟨?_, ?_, ?_⟩
    · rw [runUtilizationJSON_read _ scheds d now hA2]
    · rw [hrec]
      rfl
    · rw [runUtilizationJSON_read _ scheds d now hA2]
      dsimp only
      rw [hrec]
      rfl
  · have hAb : (recordsForDay store d).isEmpty = false := by
      revert hA
      cases (recordsForDay store d).isEmpty <;> simp
    have hne : recordsForDay store d ≠ [] := by
      simpa [List.isEmpty_iff] using hAb
    have hlen : 1 ≤ (recordsForDay store d).length := by
      have := List.length_pos.mpr hne
      omega
    rw [runUtilizationJSON_read store scheds d now hAb]
    dsimp only
    rw [runUtilizationJSON_read store scheds d now hAb]
    dsimp only
    exact ⟨rfl, by omega, by omega⟩

/-- C9 counterexample: an empty store, one 2-hour schedule on
2024-03-15 (10:00-12:00 UTC), viewed from 2025-01-01.  The first run
creates and returns the record with total_hours_used 2 and
utilization_percentage 0; the second run returns the synthetic values
10.4 and 43.2 instead, so the values returned to the caller differ even
though the stored record is unchanged. -/
theorem utilization_returned_values_differ :
    (runUtilizationJSON [] [⟨some 1, 1710496800000, 1710504000000⟩]
        ⟨2024, 3, 15⟩ 1735689600000).1 ≠
      (runUtilizationJSON
        (runUtilizationJSON [] [⟨some 1, 1710496800000, 1710504000000⟩]
          ⟨2024, 3, 15⟩ 1735689600000).2
        [⟨some 1, 1710496800000, 1710504000000⟩] ⟨2024, 3, 15⟩ 1735689600000).1 := by
  have hon : onDay ⟨some 1, 1710496800000, 1710504000000⟩ ⟨2024, 3, 15⟩ = true := by
    decide
  have h1 : runUtilizationJSON [] [⟨some 1, 1710496800000, 1710504000000⟩]
      ⟨2024, 3, 15⟩ 1735689600000 =
      ([(⟨⟨2024, 3, 15⟩, 2, 24, 0, [1]⟩ : URecord)],
        [(⟨⟨2024, 3, 15⟩, 2, 24, 0, [1]⟩ : URecord)]) := by
    unfold runUtilizationJSON
    simp only [recordsForDay, List.filter_nil, List.isEmpty_nil, if_true,
      List.find?_nil, List.filter_cons, hon, List.nil_append]
    norm_num [getHoursDifference, List.filterMap]
  have hsyn : syntheticUtilizationJSON ⟨2024, 3, 15⟩ 1735689600000 = 133821 / 3100 := by
    have hw : weekday ⟨2024, 3, 15⟩ = 5 := by decide
    have hh : hashString (isoChars ⟨2024, 3, 15⟩) ⟨1970, 1, 1⟩ = -847979091 := by
      decide
    have hfut : ¬ dateMs ⟨2024, 3, 15⟩ > 1735689600000 := by decide
    unfold syntheticUtilizationJSON
    rw [hw, hh]
    simp only [if_neg hfut]
    norm_num
  have h2 : processUtilizationRecord (⟨⟨2024, 3, 15⟩, 2, 24, 0, [1]⟩ : URecord)
      1735689600000 = (⟨⟨2024, 3, 15⟩, 52 / 5, 24, 216 / 5, [1]⟩ : URecord) := by
    unfold processUtilizationRecord
    rw [if_pos (Or.inl rfl), hsyn]
    norm_num [round1]
  have h3 : (runUtilizationJSON [(⟨⟨2024, 3, 15⟩, 2, 24, 0, [1]⟩ : URecord)]
      [⟨some 1, 1710496800000, 1710504000000⟩] ⟨2024, 3, 15⟩ 1735689600000).1 =
      [(⟨⟨2024, 3, 15⟩, 52 / 5, 24, 216 / 5, [1]⟩ : URecord)] := by
    unfold runUtilizationJSON
    rw [if_neg (by decide)]
    simp only [recordsForDay]
    rw [show (List.filter (fun r => r.date == (⟨2024, 3, 15⟩ : CDate))
        [(⟨⟨2024, 3, 15⟩, 2, 24, 0, [1]⟩ : URecord)]) =
        [(⟨⟨2024, 3, 15⟩, 2, 24, 0, [1]⟩ : URecord)] from by decide]
    rw [List.map_cons, h2, List.map_nil]
  rw [h1]
  simp only
  rw [h3]
  simp only [ne_eq, List.cons.injEq, URecord.mk.injEq]
  norm_num

/-- Witness for C9 (amended) at the same concrete store, schedule, day
and clock as the counterexample. -/
theorem utilization_store_idempotent_witness :
    (runUtilizationJSON
        (runUtilizationJSON [] [⟨some 1, 1710496800000, 1710504000000⟩]
          ⟨2024, 3, 15⟩ 1735689600000).2
        [⟨some 1, 1710496800000, 1710504000000⟩] ⟨2024, 3, 15⟩ 1735689600000).2 =
      (runUtilizationJSON [] [⟨some 1, 1710496800000, 1710504000000⟩]
        ⟨2024, 3, 15⟩ 1735689600000).2 ∧
    (recordsForDay
        (runUtilizationJSON [] [⟨some 1, 1710496800000, 1710504000000⟩]
          ⟨2024, 3, 15⟩ 1735689600000).2 ⟨2024, 3, 15⟩).length = 1 :=
  ⟨(utilization_store_idempotent [] [⟨some 1, 1710496800000, 1710504000000⟩]
      ⟨2024, 3, 15⟩ 1735689600000 (by decide) (Or.inr (by decide))).1,
   (utilization_store_idempotent [] [⟨some 1, 1710496800000, 1710504000000⟩]
      ⟨2024, 3, 15⟩ 1735689600000 (by decide) (Or.inr (by decide))).2.1⟩
